import Mathlib

/-!
Verification of the alog levelled-logging library (package alog, file alog.go).

The embedding models the package state and operations:
the dispatch table `logFuncsSlice` (a Go slice of function values, here a
`List Sink` where `Sink` names the two function values `noOpLogMsg` and
`logMsg`), the table builders `setLogLevel` / `SetLogLevel`, the six facade
functions `Trace` .. `Critical` (each returns the list of writes the call
performs), the level-name resolution done in the package `init` function,
and the `sync.Once`-guarded `SetLogDestination`.

The formatted-output primitive (Go `fmt` via `log.Printf`) is an external
collaborator; it is modelled by `sprintf` below, following the documented
behaviour of Go's fmt for simple verbs: a verb consumes one argument
(arguments are modelled pre-rendered as strings), a doubled percent renders
a literal percent, a verb with no remaining argument renders as
`%!v(MISSING)`, a trailing bare percent renders as `%!(NOVERB)`, and
leftover arguments append an `%!(EXTRA ...)` marker.  Verb flags and widths
are not modelled (the package never uses them).  The timestamp prefix and
trailing newline added by the standard-library logger are abstracted away:
a "write" is the formatted message content handed to the logger in one
`log.Printf` call.
-/

namespace Alog

/-- The two logging function values of alog.go: `noOpLogMsg` (alog.go line
188, does nothing) and `logMsg` (alog.go lines 191-208, formats and writes
one line). -/
inductive Sink where
  | noOpLogMsg : Sink
  | logMsg : Sink
  deriving DecidableEq, Repr

/-- Initial value of `logFuncsSlice` in alog.go line 51:
all levels no-op except CRITICAL. -/
def logFuncsSlice : List Sink :=
  [Sink.noOpLogMsg, Sink.noOpLogMsg, Sink.noOpLogMsg, Sink.noOpLogMsg,
   Sink.noOpLogMsg, Sink.logMsg]

/-- Ordinal of CRITICAL, the maximum log level (alog.go lines 37-44:
TRACE=0, DEBUG=1, INFO=2, WARN=3, ERROR=4, CRITICAL=5). -/
def CRITICAL : Nat := 5

/-- The private table builder `setLogLevel` (alog.go lines 149-167):
clamp the level to CRITICAL, overwrite every entry with `noOpLogMsg`,
then overwrite the suffix slice `logFuncsSlice[level:]` with `logMsg`.
The Go code mutates the global slice in place; here the new table value is
returned. -/
def setLogLevel (level : Nat) (tbl : List Sink) : List Sink :=
  let lvl := if level > CRITICAL then CRITICAL else level
  let cleared := tbl.map (fun _ => Sink.noOpLogMsg)
  cleared.take lvl ++ (cleared.drop lvl).map (fun _ => Sink.logMsg)

/-- The error value built by `SetLogLevel` for an out-of-range level
(alog.go lines 134-147). -/
structure InvalidLogLevelError where
  got : Nat
  deriving DecidableEq, Repr

/-- The public `SetLogLevel` (alog.go lines 169-178): reject levels above
CRITICAL with an `InvalidLogLevelError` and leave the table alone, otherwise
rebuild the table with `setLogLevel` and return nil (`none`). -/
def SetLogLevel (level : Nat) (tbl : List Sink) :
    Option InvalidLogLevelError × List Sink :=
  if level > CRITICAL then (some ⟨level⟩, tbl) else (none, setLogLevel level tbl)

/-- Display labels, the map `logLevelIntToStringMap` of alog.go lines 53-60.
A Go map lookup at a missing key yields the zero value, the empty string. -/
def logLevelIntToStringMap : Nat → String
  | 0 => "[TRACE] "
  | 1 => "[DEBUG] "
  | 2 => "[INFO] "
  | 3 => "[WARN] "
  | 4 => "[ERROR] "
  | 5 => "[CRITICAL] "
  | _ => ""

/-- Level-name map `logStringToIntLevelMap` of alog.go lines 62-69, as a
lookup returning `none` on a missing key (case-sensitive comparison, as Go
map keys are). -/
def logStringToIntLevelMap (s : String) : Option Nat :=
  if s = "TRACE" then some 0
  else if s = "DEBUG" then some 1
  else if s = "INFO" then some 2
  else if s = "WARN" then some 3
  else if s = "ERROR" then some 4
  else if s = "CRITICAL" then some 5
  else none

/-- Level resolution in the package `init` function (alog.go lines 112-114):
`logLevel, ok = logStringToIntLevelMap[name]` leaves the zero value 0
(TRACE) in `logLevel` when the name is missing, and a diagnostic is printed
exactly when `ok` is false.  Result: (resolved level, diagnostic emitted).
Resolution is a total function: it never aborts. -/
def initLogLevel (s : String) : Nat × Bool :=
  match logStringToIntLevelMap s with
  | some l => (l, false)
  | none => (0, true)

/-- Marker Go's fmt appends when arguments remain after the format string is
exhausted (arguments are pre-rendered as strings in this model). -/
def extraMark (args : List String) : List Char :=
  match args with
  | [] => []
  | _ => ("%!(EXTRA ").data ++ (String.intercalate (", ") args).data ++ (")").data

/-- Model of Go fmt format-string processing over the characters of the
format: a doubled percent emits a percent, a verb consumes one argument,
a verb with no argument left emits a `%!v(MISSING)` marker, a trailing bare
percent emits `%!(NOVERB)`. -/
def sprintfAux : List Char → List String → List Char
  | [], args => extraMark args
  | c :: rest, args =>
    if c = '%' then
      match rest with
      | [] => ("%!(NOVERB)").data ++ extraMark args
      | v :: rest' =>
        if v = '%' then '%' :: sprintfAux rest' args
        else
          match args with
          | a :: args' => a.data ++ sprintfAux rest' args'
          | [] => '%' :: '!' :: v :: (("(MISSING)").data ++ sprintfAux rest' [])
    else c :: sprintfAux rest args

/-- Model of `fmt.Sprintf` / `log.Printf` formatting on strings. -/
def sprintf (fmt : String) (args : List String) : String :=
  ⟨sprintfAux fmt.data args⟩

/-- The active sink `logMsg` (alog.go lines 191-208): build
`"- " + label + "- " + msg` with a string builder, then hand it to
`log.Printf` — with the argument list when non-empty, bare otherwise (both
paths treat it as a format string).  Returns the content of the single
write. -/
def logMsg (level : Nat) (msg : String) (objs : List String) : String :=
  let m := "- " ++ logLevelIntToStringMap level ++ "- " ++ msg
  if objs.length > 0 then sprintf m objs else sprintf m []

/-- Invoking a stored function value: `noOpLogMsg` performs no write,
`logMsg` performs exactly one write.  The result is the list of writes. -/
def runSink : Sink → Nat → String → List String → List String
  | Sink.noOpLogMsg, _, _, _ => []
  | Sink.logMsg, level, msg, objs => [logMsg level msg objs]

/-- Facade `Trace` (alog.go lines 210-215): look the function value up at
index TRACE and invoke it. -/
def Trace (tbl : List Sink) (msg : String) (objs : List String) : List String :=
  let level : Nat := 0
  let logFunc := tbl.getD level Sink.noOpLogMsg
  runSink logFunc level msg objs

/-- Facade `Debug` (alog.go lines 217-222). -/
def Debug (tbl : List Sink) (msg : String) (objs : List String) : List String :=
  let level : Nat := 1
  let logFunc := tbl.getD level Sink.noOpLogMsg
  runSink logFunc level msg objs

/-- Facade `Info` (alog.go lines 224-229). -/
def Info (tbl : List Sink) (msg : String) (objs : List String) : List String :=
  let level : Nat := 2
  let logFunc := tbl.getD level Sink.noOpLogMsg
  runSink logFunc level msg objs

/-- Facade `Warn` (alog.go lines 231-236). -/
def Warn (tbl : List Sink) (msg : String) (objs : List String) : List String :=
  let level : Nat := 3
  let logFunc := tbl.getD level Sink.noOpLogMsg
  runSink logFunc level msg objs

/-- Facade `Error` (alog.go lines 238-243). -/
def Error (tbl : List Sink) (msg : String) (objs : List String) : List String :=
  let level : Nat := 4
  let logFunc := tbl.getD level Sink.noOpLogMsg
  runSink logFunc level msg objs

/-- Facade `Critical` (alog.go lines 245-250). -/
def Critical (tbl : List Sink) (msg : String) (objs : List String) : List String :=
  let level : Nat := 5
  let logFunc := tbl.getD level Sink.noOpLogMsg
  runSink logFunc level msg objs

/-- Severity-indexed view of the six facade functions. -/
def facade : Fin 6 → List Sink → String → List String → List String
  | ⟨0, _⟩ => Trace
  | ⟨1, _⟩ => Debug
  | ⟨2, _⟩ => Info
  | ⟨3, _⟩ => Warn
  | ⟨4, _⟩ => Error
  | ⟨5, _⟩ => Critical

/-- State touched by `SetLogDestination`: the current output writer and the
`sync.Once` flag of the guard `singleTon` (alog.go line 132). -/
structure OnceState (W : Type) where
  output : W
  done : Bool
  deriving DecidableEq, Repr

/-- The public `SetLogDestination` (alog.go lines 180-184):
`singleTon.Do(func() { log.SetOutput(w) })` — `sync.Once.Do` runs the body
only if the gate has not fired yet and then marks it fired. -/
def SetLogDestination {W : Type} (w : W) (st : OnceState W) : OnceState W :=
  if st.done then st else { output := w, done := true }

-- 2. Helper lemmas -----------------------------------------------------------

theorem setLogLevel_indep (level : Nat) (tbl : List Sink)
    (hlen : tbl.length = 6) :
    setLogLevel level tbl = setLogLevel level logFuncsSlice := by
  unfold setLogLevel
  rw [List.map_const', hlen]
  rfl

theorem setLogLevel_length (level : Nat) (tbl : List Sink)
    (hlen : tbl.length = 6) :
    (setLogLevel level tbl).length = 6 := by
  unfold setLogLevel
  simp [List.length_append, List.length_take, List.length_map,
    List.length_drop, hlen, CRITICAL]
  split <;> omega

theorem setLogLevel_getD (level : Nat) (tbl : List Sink)
    (hlen : tbl.length = 6) (i : Nat) (hi : i < 6) :
    (setLogLevel level tbl).getD i Sink.noOpLogMsg =
      if i < (if level > CRITICAL then CRITICAL else level) then
        Sink.noOpLogMsg else Sink.logMsg := by
  rw [setLogLevel_indep level tbl hlen]
  by_cases h5 : level > CRITICAL
  · simp only [h5, if_true]
    have h5' : 5 < level := h5
    have : setLogLevel level logFuncsSlice = setLogLevel 5 logFuncsSlice := by
      unfold setLogLevel
      simp [CRITICAL, h5']
    rw [this]
    interval_cases i <;> decide
  · simp only [h5, if_false]
    have hle : level ≤ 5 := by
      simp [CRITICAL] at h5
      omega
    interval_cases level <;> interval_cases i <;> decide

theorem label_percent_free (level : Nat) :
    ∀ c ∈ ("- " ++ logLevelIntToStringMap level ++ "- ").data, c ≠ '%' := by
  rcases level with _ | _ | _ | _ | _ | _ | n
  · decide
  · decide
  · decide
  · decide
  · decide
  · decide
  · simp only [logLevelIntToStringMap]
    decide

theorem sprintfAux_cons_ne (c : Char) (rest : List Char) (args : List String)
    (hc : c ≠ '%') : sprintfAux (c :: rest) args = c :: sprintfAux rest args := by
  cases rest with
  | nil => rw [sprintfAux.eq_2, if_neg hc]
  | cons v rest' =>
    cases args with
    | nil => rw [sprintfAux.eq_4, if_neg hc]
    | cons a args' => rw [sprintfAux.eq_3, if_neg hc]

theorem sprintfAux_append (pre m : List Char) (args : List String)
    (hp : ∀ c ∈ pre, c ≠ '%') :
    sprintfAux (pre ++ m) args = pre ++ sprintfAux m args := by
  induction pre with
  | nil => rfl
  | cons c pre ih =>
    have hc : c ≠ '%' := hp c (by simp)
    have hrest : ∀ x ∈ pre, x ≠ '%' := fun x hx => hp x (by simp [hx])
    rw [List.cons_append, sprintfAux_cons_ne c (pre ++ m) args hc, ih hrest,
      List.cons_append]

theorem sprintf_append (pre msg : String) (args : List String)
    (hp : ∀ c ∈ pre.data, c ≠ '%') :
    sprintf (pre ++ msg) args = pre ++ sprintf msg args := by
  apply String.ext
  show sprintfAux (pre ++ msg).data args = (pre ++ sprintf msg args).data
  rw [String.data_append, String.data_append, sprintfAux_append pre.data msg.data args hp]
  rfl

theorem logMsg_eq (level : Nat) (msg : String) (objs : List String) :
    logMsg level msg objs =
      "- " ++ logLevelIntToStringMap level ++ "- " ++ sprintf msg objs := by
  unfold logMsg
  have hbr :
      (if objs.length > 0 then
        sprintf ("- " ++ logLevelIntToStringMap level ++ "- " ++ msg) objs
      else sprintf ("- " ++ logLevelIntToStringMap level ++ "- " ++ msg) []) =
        sprintf ("- " ++ logLevelIntToStringMap level ++ "- " ++ msg) objs := by
    cases objs <;> simp
  rw [hbr]
  exact sprintf_append ("- " ++ logLevelIntToStringMap level ++ "- ") msg objs
    (label_percent_free level)

theorem facade_eq (s : Fin 6) (tbl : List Sink) (msg : String)
    (objs : List String) :
    facade s tbl msg objs =
      runSink (tbl.getD s.val Sink.noOpLogMsg) s.val msg objs := by
  fin_cases s <;> rfl

theorem clamp_le (level : Nat) :
    (if level > CRITICAL then CRITICAL else level) ≤ 5 := by
  simp only [CRITICAL]
  split <;> omega

-- 3. Claim theorems ----------------------------------------------------------

/-- C2: after `setLogLevel level` runs with a threshold `level ≤ 5` on the
six-entry dispatch table, entry `i` is the inert sink `noOpLogMsg` exactly
when `i < level`, and the active sink `logMsg` otherwise. -/
theorem alog_C2_table_build (level : Nat) (hlevel : level ≤ 5)
    (tbl : List Sink) (hlen : tbl.length = 6) (i : Fin 6) :
    (setLogLevel level tbl).getD i.val Sink.noOpLogMsg =
      if i.val < level then Sink.noOpLogMsg else Sink.logMsg := by
  rw [setLogLevel_getD level tbl hlen i.val i.isLt]
  have h : ¬ (level > CRITICAL) := by
    simp only [CRITICAL]
    omega
  rw [if_neg h]

theorem alog_C2_witness :
    (setLogLevel 3 logFuncsSlice).getD 2 Sink.noOpLogMsg =
      if 2 < 3 then Sink.noOpLogMsg else Sink.logMsg :=
  alog_C2_table_build 3 (by decide) logFuncsSlice (by decide) ⟨2, by decide⟩

/-- C3: gating is monotone in the threshold.  For thresholds `t1 ≤ t2 ≤ 5`,
every severity made inert by building the table with `t1` is inert when
building with `t2`, and every severity active under `t2` is active under
`t1`. -/
theorem alog_C3_monotone (t1 t2 : Nat) (h12 : t1 ≤ t2) (h2 : t2 ≤ 5)
    (i : Fin 6) :
    ((setLogLevel t1 logFuncsSlice).getD i.val Sink.noOpLogMsg =
        Sink.noOpLogMsg →
      (setLogLevel t2 logFuncsSlice).getD i.val Sink.noOpLogMsg =
        Sink.noOpLogMsg) ∧
    ((setLogLevel t2 logFuncsSlice).getD i.val Sink.noOpLogMsg =
        Sink.logMsg →
      (setLogLevel t1 logFuncsSlice).getD i.val Sink.noOpLogMsg =
        Sink.logMsg) := by
  have e1 := setLogLevel_getD t1 logFuncsSlice (by decide) i.val i.isLt
  have e2 := setLogLevel_getD t2 logFuncsSlice (by decide) i.val i.isLt
  have hn1 : ¬ (t1 > CRITICAL) := by
    simp only [CRITICAL]
    omega
  have hn2 : ¬ (t2 > CRITICAL) := by
    simp only [CRITICAL]
    omega
  rw [if_neg hn1] at e1
  rw [if_neg hn2] at e2
  rw [e1, e2]
  constructor
  · intro h
    split at h
    · rw [if_pos (by omega)]
    · exact absurd h (by decide)
  · intro h
    split at h
    · exact absurd h (by decide)
    · rw [if_neg (by omega)]

theorem alog_C3_witness :
    ((setLogLevel 1 logFuncsSlice).getD 0 Sink.noOpLogMsg =
        Sink.noOpLogMsg →
      (setLogLevel 4 logFuncsSlice).getD 0 Sink.noOpLogMsg =
        Sink.noOpLogMsg) ∧
    ((setLogLevel 4 logFuncsSlice).getD 0 Sink.noOpLogMsg =
        Sink.logMsg →
      (setLogLevel 1 logFuncsSlice).getD 0 Sink.noOpLogMsg =
        Sink.logMsg) :=
  alog_C3_monotone 1 4 (by decide) (by decide) ⟨0, by decide⟩

/-- C4: CRITICAL is never suppressed.  Entry 5 of the initial dispatch table
is `logMsg`, and after `setLogLevel` with any level argument whatsoever
(clamping covers arguments above CRITICAL) entry 5 is `logMsg`. -/
theorem alog_C4_critical_always_active (level : Nat) (tbl : List Sink)
    (hlen : tbl.length = 6) :
    logFuncsSlice.getD 5 Sink.noOpLogMsg = Sink.logMsg ∧
    (setLogLevel level tbl).getD 5 Sink.noOpLogMsg = Sink.logMsg := by
  refine ⟨by decide, ?_⟩
  rw [setLogLevel_getD level tbl hlen 5 (by decide)]
  have := clamp_le level
  rw [if_neg (by omega)]

theorem alog_C4_witness :
    logFuncsSlice.getD 5 Sink.noOpLogMsg = Sink.logMsg ∧
    (setLogLevel 9 logFuncsSlice).getD 5 Sink.noOpLogMsg = Sink.logMsg :=
  alog_C4_critical_always_active 9 logFuncsSlice (by decide)

/-- C5: `SetLogLevel` rejects a level above CRITICAL with the non-nil
`InvalidLogLevelError` carrying that level, leaving the dispatch table
exactly as it was, and returns nil (`none`) for a level at most CRITICAL. -/
theorem alog_C5_invalid_level (level : Nat) (tbl : List Sink) :
    (5 < level →
      (SetLogLevel level tbl).1 = some ⟨level⟩ ∧
      (SetLogLevel level tbl).2 = tbl) ∧
    (level ≤ 5 → (SetLogLevel level tbl).1 = none) := by
  unfold SetLogLevel
  constructor
  · intro h
    have h' : level > CRITICAL := h
    rw [if_pos h']
    exact ⟨rfl, rfl⟩
  · intro h
    have h' : ¬ (level > CRITICAL) := by
      simp only [CRITICAL]
      omega
    rw [if_neg h']

theorem alog_C5_witness :
    ((SetLogLevel 6 logFuncsSlice).1 = some ⟨6⟩ ∧
      (SetLogLevel 6 logFuncsSlice).2 = logFuncsSlice) ∧
    (SetLogLevel 3 logFuncsSlice).1 = none :=
  ⟨(alog_C5_invalid_level 6 logFuncsSlice).1 (by decide),
   (alog_C5_invalid_level 3 logFuncsSlice).2 (by decide)⟩

/-- C7: the table builder clamps thresholds above CRITICAL to CRITICAL: it
produces the same table as threshold 5, with the CRITICAL entry active and
every entry below it inert. -/
theorem alog_C7_clamp (level : Nat) (h : 5 < level) (tbl : List Sink)
    (hlen : tbl.length = 6) :
    setLogLevel level tbl = setLogLevel 5 tbl ∧
    (setLogLevel level tbl).getD 5 Sink.noOpLogMsg = Sink.logMsg ∧
    (∀ i : Fin 6, i.val < 5 →
      (setLogLevel level tbl).getD i.val Sink.noOpLogMsg =
        Sink.noOpLogMsg) := by
  have h' : level > CRITICAL := h
  refine ⟨?_, ?_, ?_⟩
  · unfold setLogLevel
    simp [CRITICAL, h]
  · rw [setLogLevel_getD level tbl hlen 5 (by decide), if_pos h']
    rw [if_neg (by simp [CRITICAL])]
  · intro i hi
    rw [setLogLevel_getD level tbl hlen i.val i.isLt, if_pos h']
    rw [if_pos (by simpa [CRITICAL] using hi)]

theorem alog_C7_witness :
    setLogLevel 7 logFuncsSlice = setLogLevel 5 logFuncsSlice ∧
    (setLogLevel 7 logFuncsSlice).getD 5 Sink.noOpLogMsg = Sink.logMsg ∧
    (∀ i : Fin 6, i.val < 5 →
      (setLogLevel 7 logFuncsSlice).getD i.val Sink.noOpLogMsg =
        Sink.noOpLogMsg) :=
  alog_C7_clamp 7 (by decide) logFuncsSlice (by decide)

/-- C6 counterexample: `SetLogLevel` is not configure-once.  With the valid
levels l1 = 0 (TRACE) and l2 = 5 (CRITICAL), the second call rebuilds the
dispatch table, so the table after both calls differs from the table after
the first call alone. -/
theorem alog_C6_counterexample :
    ¬ ((SetLogLevel 5 (SetLogLevel 0 logFuncsSlice).2).2 =
        (SetLogLevel 0 logFuncsSlice).2) := by
  decide

/-- C6 amended: a second successful `SetLogLevel` call is not ignored; it
rebuilds the dispatch table from its own argument, so the table after the
two calls is exactly the table the second level alone would build
(last-write-wins). -/
theorem alog_C6_amended_last_write_wins (l1 l2 : Fin 6) :
    (SetLogLevel l2.val (SetLogLevel l1.val logFuncsSlice).2).2 =
      (SetLogLevel l2.val logFuncsSlice).2 := by
  have h1 : ¬ (l1.val > CRITICAL) := by
    have := l1.isLt
    simp only [CRITICAL]
    omega
  have h2 : ¬ (l2.val > CRITICAL) := by
    have := l2.isLt
    simp only [CRITICAL]
    omega
  simp only [SetLogLevel, if_neg h1, if_neg h2]
  exact setLogLevel_indep l2.val _ (setLogLevel_length l1.val _ (by decide))

/-- C8 counterexample: with zero extra arguments the active sink does not
write the message template literally.  At level TRACE with the template
consisting of a percent and the letter d, the written content is not the
prefix followed by that template unchanged (Go's fmt renders the verb as a
missing-argument marker). -/
theorem alog_C8_counterexample :
    logMsg 0 ("%d") [] ≠
      "- " ++ logLevelIntToStringMap 0 ++ "- " ++ "%d" := by
  decide

/-- C8 amended: a facade call with zero extra arguments still hands the
built string to the formatting primitive as a format string — the written
content is the prefix and label followed by the template with printf-style
interpolation applied to an empty argument list — and that interpolation
rewrites a lone percent-d verb into the missing-argument marker instead of
leaving it unchanged. -/
theorem alog_C8_amended_zero_args_interpolated :
    (∀ (s : Fin 6) (msg : String),
      logMsg s.val msg [] =
        "- " ++ logLevelIntToStringMap s.val ++ "- " ++ sprintf msg []) ∧
    sprintf ("%d") [] = "%!d(MISSING)" := by
  refine ⟨fun s msg => logMsg_eq s.val msg [], ?_⟩
  decide

/-- C9: an unrecognized (case-sensitive) level name resolves to level 0
(TRACE) with a diagnostic emitted; the subsequent `SetLogLevel` with that
level succeeds, and every entry of the resulting dispatch table is the
active sink, so all six levels stay active.  Resolution is total — it never
fails fatally. -/
theorem alog_C9_bad_level_name (s : String)
    (h : s ∉ (["TRACE", "DEBUG", "INFO", "WARN", "ERROR",
      "CRITICAL"] : List String)) :
    initLogLevel s = (0, true) ∧
    (SetLogLevel (initLogLevel s).1 logFuncsSlice).1 = none ∧
    ∀ i : Fin 6,
      ((SetLogLevel (initLogLevel s).1 logFuncsSlice).2).getD i.val
        Sink.noOpLogMsg = Sink.logMsg := by
  simp only [List.mem_cons, List.not_mem_nil, or_false, not_or] at h
  obtain ⟨h1, h2, h3, h4, h5, h6⟩ := h
  have h0 : initLogLevel s = (0, true) := by
    simp [initLogLevel, logStringToIntLevelMap, h1, h2, h3, h4, h5, h6]
  refine ⟨h0, ?_, ?_⟩
  · rw [h0]
    decide
  · rw [h0]
    decide

theorem alog_C9_witness :
    initLogLevel ("BOGUS") = (0, true) ∧
    (SetLogLevel (initLogLevel ("BOGUS")).1 logFuncsSlice).1 = none ∧
    ∀ i : Fin 6,
      ((SetLogLevel (initLogLevel ("BOGUS")).1 logFuncsSlice).2).getD i.val
        Sink.noOpLogMsg = Sink.logMsg :=
  alog_C9_bad_level_name ("BOGUS") (by decide)

/-- C10: the destination set through `SetLogDestination` never changes after
the first call: the `sync.Once` gate makes a second call, with any writer,
leave the whole destination state (output writer included) unchanged. -/
theorem alog_C10_destination_once {W : Type} (w1 w2 : W)
    (st : OnceState W) :
    SetLogDestination w2 (SetLogDestination w1 st) =
      SetLogDestination w1 st := by
  unfold SetLogDestination
  rcases st with ⟨o, d⟩
  cases d <;> simp

/-- C1: facade-level gating.  With the threshold `t` configured through
`SetLogLevel` (valid, at most CRITICAL), a facade call at severity `s`
performs no write and hits the no-op sink when `s < t`, and performs
exactly one write whose content has the display label of `s` and the
rendered message as substrings when `s ≥ t`. -/
theorem alog_C1_facade_gating (t s : Fin 6) (msg : String)
    (objs : List String) :
    (s.val < t.val →
      facade s ((SetLogLevel t.val logFuncsSlice).2) msg objs = [] ∧
      ((SetLogLevel t.val logFuncsSlice).2).getD s.val Sink.noOpLogMsg =
        Sink.noOpLogMsg) ∧
    (t.val ≤ s.val →
      ∃ line,
        facade s ((SetLogLevel t.val logFuncsSlice).2) msg objs = [line] ∧
        List.IsInfix (logLevelIntToStringMap s.val).data line.data ∧
        List.IsInfix (sprintf msg objs).data line.data) := by
  have ht : ¬ (t.val > CRITICAL) := by
    have := t.isLt
    simp only [CRITICAL]
    omega
  have htbl : (SetLogLevel t.val logFuncsSlice).2 =
      setLogLevel t.val logFuncsSlice := by
    unfold SetLogLevel
    rw [if_neg ht]
  rw [htbl, facade_eq]
  have hget := setLogLevel_getD t.val logFuncsSlice (by decide) s.val s.isLt
  rw [if_neg ht] at hget
  rw [hget]
  constructor
  · intro hlt
    rw [if_pos hlt]
    exact ⟨rfl, rfl⟩
  · intro hge
    rw [if_neg (Nat.not_lt.mpr hge)]
    refine ⟨logMsg s.val msg objs, rfl, ?_, ?_⟩
    · rw [logMsg_eq]
      refine ⟨("- ").data, (("- ") ++ sprintf msg objs).data, ?_⟩
      simp [String.data_append, List.append_assoc]
    · rw [logMsg_eq]
      refine ⟨(("- ") ++ logLevelIntToStringMap s.val ++ ("- ")).data, [], ?_⟩
      simp [String.data_append, List.append_assoc]

theorem alog_C1_witness :
    (facade 1 ((SetLogLevel 4 logFuncsSlice).2) ("x") [] = [] ∧
      ((SetLogLevel 4 logFuncsSlice).2).getD 1 Sink.noOpLogMsg =
        Sink.noOpLogMsg) ∧
    (∃ line,
      facade 4 ((SetLogLevel 1 logFuncsSlice).2) ("x") [] = [line] ∧
      List.IsInfix (logLevelIntToStringMap 4).data line.data ∧
      List.IsInfix (sprintf ("x") []).data line.data) :=
  ⟨(alog_C1_facade_gating 4 1 ("x") []).1 (by decide),
   (alog_C1_facade_gating 1 4 ("x") []).2 (by decide)⟩

end Alog
